import Mathlib

/-!
Shallow embedding of the session/stream state machine of the llm-distill
web client, together with proofs of its specified properties.

The embedding follows the TypeScript source:
* `apps/web/src/types/index.ts` — data model (`Message`, `Chat`, `AppState`, `Action`);
* `apps/web/src/providers/chatReducer.ts` — the pure reducer `chatReducer`;
* `apps/web/src/hooks/useSseStream.ts` — the stream controller
  (`stopStream`, `startStream`, channel events);
* `apps/web/src/hooks/useLocalStorage.ts` — the persistence adapter;
* `apps/web/src/providers/ChatProvider.tsx` — the repair effect of the store.

Modelling conventions:
* timestamps (`Date.now()`) are `Nat` milliseconds; the derived
  `generationTime` (seconds, a JS number produced by an exact division in
  the reals for the inputs of interest) is modelled as `ℚ`;
* JavaScript truthiness tests on optional values are modelled explicitly
  (`truthyNat`, `truthyOptStr`, `jsOrNull`): `undefined`, `null`, `0` and
  the empty string are falsy;
* the non-deterministic inputs of an action (`generateUUID()`,
  `Date.now()`, `toLocaleTimeString()`) are carried as extra fields of the
  action, so the reducer itself is a pure function as in the source.
-/

namespace LlmDistill

/-- `role: 'user' | 'model'` from `types/index.ts`. -/
inductive Role where
  | user
  | model
deriving DecidableEq, Repr

/-- `Message` from `types/index.ts`: `generationTime` is the optional
time in seconds from request submission to first token generation. -/
structure Message where
  id : String
  role : Role
  content : String
  generationTime : Option ℚ := none
deriving DecidableEq, Repr

/-- `Chat` from `types/index.ts`. `streamingStartTime` is a `Date.now()`
millisecond timestamp. -/
structure Chat where
  id : String
  title : String
  context : String
  messages : List Message
  createdAt : Nat
  isStreaming : Bool := false
  streamingStartTime : Option Nat := none
  draftMessage : String := ""
deriving DecidableEq, Repr

/-- `AppState` from `types/index.ts`. -/
structure AppState where
  chats : List Chat
  activeChatId : Option String := none
deriving DecidableEq, Repr

/-- The action union from `types/index.ts`.  Fresh identifiers and
timestamps that the reducer obtains from `generateUUID()` /
`Date.now()` / `toLocaleTimeString()` are carried in the action. -/
inductive Action where
  | createChat (context title : String) (freshId : String) (now : Nat) (timeLabel : String)
  | deleteChat (chatId : String)
  | setActiveChat (chatId : Option String)
  | addUserMessage (chatId : String) (content : String) (freshId : String)
  | addModelPlaceholder (chatId : String) (freshId : String)
  | appendStreamToken (chatId : String) (token : String) (now : Nat)
  | setChatStreamingStatus (chatId : String) (isStreaming : Bool)
  | setStreamingStartTime (chatId : String) (startTime : Option Nat)
  | rollbackLastExchange (chatId : String)
  | updateDraftMessage (chatId : String) (text : String)
deriving DecidableEq, Repr

/-- JavaScript truthiness of an optional number: `undefined` and `0`
are falsy. -/
def truthyNat : Option Nat → Bool
  | none => false
  | some n => n != 0

/-- JavaScript truthiness of an optional string: `undefined`, `null`
and the empty string are falsy. -/
def truthyOptStr : Option String → Bool
  | none => false
  | some s => s != ""

/-- `x || null` on an optional string: a falsy value (absent or empty
string) becomes `null`. -/
def jsOrNull : Option String → Option String
  | none => none
  | some s => if s = "" then none else some s

/-- `state.chats.map(chat => chat.id === chatId ? f(chat) : chat)`:
the per-session update pattern shared by every per-session branch of
`chatReducer`. -/
def mapChat (chatId : String) (f : Chat → Chat) (chats : List Chat) : List Chat :=
  chats.map (fun chat => if chat.id == chatId then f chat else chat)

/-- Body of the `APPEND_STREAM_TOKEN` branch of `chatReducer.ts` for the
matching chat: look up the last message; if it is not a `model` message
(in particular if there is none) the chat is returned unchanged;
otherwise append `token` and, when the old content was empty and
`chat.streamingStartTime` is truthy, attach
`generationTime = (now − streamingStartTime) / 1000` (the conditional
object spread `...(generationTime !== undefined && { generationTime })`
keeps the old `generationTime` when none was computed). -/
def appendTokenChat (token : String) (now : Nat) (chat : Chat) : Chat :=
  match chat.messages.getLast? with
  | none => chat
  | some lastMessage =>
    if lastMessage.role ≠ Role.model then chat
    else
      let isFirstToken : Bool := lastMessage.content == ""
      let updatedLastMessage : Message :=
        { lastMessage with
          content := lastMessage.content ++ token,
          generationTime :=
            if isFirstToken && truthyNat chat.streamingStartTime then
              some (((now : ℚ) - ((chat.streamingStartTime.getD 0 : Nat) : ℚ)) / 1000)
            else lastMessage.generationTime }
      { chat with messages := chat.messages.dropLast ++ [updatedLastMessage] }

/-- Body of the `ROLLBACK_LAST_EXCHANGE` branch for the matching chat:
`messages.slice(0, -2)` when at least two messages exist, no-op
otherwise. -/
def rollbackChat (chat : Chat) : Chat :=
  if chat.messages.length ≥ 2 then
    { chat with messages := chat.messages.take (chat.messages.length - 2) }
  else chat

/-- `chatReducer` from `providers/chatReducer.ts`: the pure total
reducer of the application state. -/
def chatReducer (state : AppState) (action : Action) : AppState :=
  match action with
  | .createChat context title freshId now timeLabel =>
    let newChat : Chat :=
      { id := freshId
        title := if title = "" then "Session " ++ timeLabel else title
        context := context
        messages := []
        createdAt := now
        isStreaming := false
        draftMessage := "" }
    { state with chats := newChat :: state.chats, activeChatId := some newChat.id }
  | .deleteChat chatId =>
    let updatedChats := state.chats.filter (fun c => c.id != chatId)
    let newActiveChatId :=
      if state.activeChatId = some chatId then
        jsOrNull ((updatedChats.head?).map Chat.id)
      else state.activeChatId
    { state with chats := updatedChats, activeChatId := newActiveChatId }
  | .setActiveChat chatId =>
    { state with activeChatId := chatId }
  | .addUserMessage chatId content freshId =>
    let newUserMessage : Message := { id := freshId, role := Role.user, content := content }
    { state with
      chats := mapChat chatId
        (fun chat => { chat with messages := chat.messages ++ [newUserMessage] }) state.chats }
  | .addModelPlaceholder chatId freshId =>
    let newModelMessage : Message := { id := freshId, role := Role.model, content := "" }
    { state with
      chats := mapChat chatId
        (fun chat => { chat with messages := chat.messages ++ [newModelMessage] }) state.chats }
  | .appendStreamToken chatId token now =>
    { state with chats := mapChat chatId (appendTokenChat token now) state.chats }
  | .setChatStreamingStatus chatId isStreaming =>
    { state with
      chats := mapChat chatId (fun chat => { chat with isStreaming := isStreaming }) state.chats }
  | .rollbackLastExchange chatId =>
    { state with chats := mapChat chatId rollbackChat state.chats }
  | .setStreamingStartTime chatId startTime =>
    { state with
      chats := mapChat chatId
        (fun chat => { chat with streamingStartTime := startTime }) state.chats }
  | .updateDraftMessage chatId text =>
    { state with
      chats := mapChat chatId (fun chat => { chat with draftMessage := text }) state.chats }

/-- The session targeted by a per-session action (`none` for the three
global actions). -/
def Action.sessionIdOf : Action → Option String
  | .addUserMessage chatId _ _ => some chatId
  | .addModelPlaceholder chatId _ => some chatId
  | .appendStreamToken chatId _ _ => some chatId
  | .setChatStreamingStatus chatId _ => some chatId
  | .setStreamingStartTime chatId _ => some chatId
  | .rollbackLastExchange chatId => some chatId
  | .updateDraftMessage chatId _ => some chatId
  | _ => none

/-! ### Stream controller (`hooks/useSseStream.ts`)

The controller owns `eventSourcesRef.current`, a JS object mapping a
chat id to its open `EventSource`.  An `EventSource` is modelled by the
per-connection client identifier used to open it; the object is
modelled as an association list with pairwise-distinct keys maintained
by construction.  Channel closure (`eventSource.close()`) is recorded
in a `closed` output list of the connection identifiers closed by the
call, and `dispatch` calls in a `dispatched` output list of actions in
dispatch order. -/

/-- `eventSourcesRef.current[chatId]`. -/
def lookupES (l : List (String × String)) (chatId : String) : Option String :=
  (l.find? (fun p => p.1 == chatId)).map Prod.snd

/-- `delete eventSourcesRef.current[chatId]`. -/
def eraseES (l : List (String × String)) (chatId : String) : List (String × String) :=
  l.filter (fun p => p.1 != chatId)

/-- `eventSourcesRef.current[chatId] = eventSource`. -/
def setES (l : List (String × String)) (chatId clientId : String) : List (String × String) :=
  (chatId, clientId) :: eraseES l chatId

/-- The controller's mutable state: the session-to-channel map. -/
structure ControllerState where
  eventSources : List (String × String)
deriving DecidableEq, Repr

/-- Outcome of a controller call: the new channel map, the actions
dispatched to the reducer in order, and the connection identifiers of
the channels closed by the call. -/
structure ControllerResult where
  state : ControllerState
  dispatched : List Action
  closed : List String
deriving DecidableEq, Repr

/-- `stopStream(chatId, { isManualStop })` from `useSseStream.ts`: if a
channel is open for `chatId`, close and discard it, dispatch the
clearing of `streamingStartTime` and of the streaming flag, and, on a
manual stop, additionally dispatch `ROLLBACK_LAST_EXCHANGE`; otherwise
do nothing. -/
def stopStream (cs : ControllerState) (chatId : String) (isManualStop : Bool) :
    ControllerResult :=
  match lookupES cs.eventSources chatId with
  | some eventSource =>
    { state := ⟨eraseES cs.eventSources chatId⟩
      dispatched :=
        [Action.setStreamingStartTime chatId none,
         Action.setChatStreamingStatus chatId false] ++
        (if isManualStop then [Action.rollbackLastExchange chatId] else [])
      closed := [eventSource] }
  | none => { state := cs, dispatched := [], closed := [] }

/-- `startStream(chatId, prompt, context)` from `useSseStream.ts`: if a
channel is already open for `chatId`, first stop it with manual
semantics; then dispatch the four stream-setup actions and register a
new channel opened under the fresh `clientId`.  `now` is the
`Date.now()` value recorded as the streaming start time, and `uid`,
`mid` the fresh ids of the user message and model placeholder. -/
def startStream (cs : ControllerState) (chatId prompt context : String)
    (now : Nat) (uid mid clientId : String) : ControllerResult :=
  let stopped : ControllerResult :=
    if (lookupES cs.eventSources chatId).isSome then
      stopStream cs chatId true
    else
      { state := cs, dispatched := [], closed := [] }
  { state := ⟨setES stopped.state.eventSources chatId clientId⟩
    dispatched := stopped.dispatched ++
      [Action.setStreamingStartTime chatId (some now),
       Action.addUserMessage chatId prompt uid,
       Action.addModelPlaceholder chatId mid,
       Action.setChatStreamingStatus chatId true]
    closed := stopped.closed }

/-- One externally observable controller step: a `startStream` or
`stopStream` call, a channel `end`/`error` event or a submission
failure (each of which invokes a non-manual `stopStream`), or an
inbound data event (which only dispatches and never touches the
channel map). -/
inductive StreamStep where
  | start (chatId prompt context : String) (now : Nat) (uid mid clientId : String)
  | stop (chatId : String) (isManualStop : Bool)
  | endEvent (chatId : String)
  | errorEvent (chatId : String)
  | submitFailure (chatId : String)
  | dataEvent (chatId : String) (token : String)
deriving DecidableEq, Repr

/-- Effect of a controller step on the session-to-channel map. -/
def stepES (cs : ControllerState) (s : StreamStep) : ControllerState :=
  match s with
  | .start chatId prompt context now uid mid clientId =>
    (startStream cs chatId prompt context now uid mid clientId).state
  | .stop chatId isManualStop => (stopStream cs chatId isManualStop).state
  | .endEvent chatId => (stopStream cs chatId false).state
  | .errorEvent chatId => (stopStream cs chatId false).state
  | .submitFailure chatId => (stopStream cs chatId false).state
  | .dataEvent _ _ => cs

/-- At most one open channel per session id: the keys of the
session-to-channel map are pairwise distinct. -/
def KeysNodup (cs : ControllerState) : Prop :=
  (cs.eventSources.map Prod.fst).Nodup

/-! ### Persistence adapter (`hooks/useLocalStorage.ts`) -/

/-- What reading `window.localStorage.getItem(key)` can observe:
`window` undefined, the read raising, or an item (`null` or a blob). -/
inductive StorageRead where
  | unavailable
  | raises
  | found (item : Option String)
deriving DecidableEq, Repr

/-- The `useState` initializer of `useLocalStorage.ts`: return
`initialValue` when `window` is undefined; otherwise read the item and
return `item ? JSON.parse(item) : initialValue`, falling back to
`initialValue` when the read or the parse raises.  `parse` abstracts
`JSON.parse`, returning `none` when it would throw. -/
def localStorageLoad {T : Type} (parse : String → Option T)
    (read : StorageRead) (initialValue : T) : T :=
  match read with
  | .unavailable => initialValue
  | .raises => initialValue
  | .found none => initialValue
  | .found (some item) =>
    if item = "" then initialValue
    else
      match parse item with
      | some v => v
      | none => initialValue

/-- The save effect of `useLocalStorage.ts`: when `window` is defined,
try `setItem` with the serialized value (a failing write is caught and
only logged); the result is the stored blob after the effect paired
with the in-memory value after the effect.  `setOk` tells whether the
write raises; the effect body never touches the in-memory value. -/
def localStorageSave {T : Type} (windowDefined setOk : Bool)
    (stored : Option String) (serialize : T → String) (storedValue : T) :
    Option String × T :=
  if windowDefined && setOk then (some (serialize storedValue), storedValue)
  else (stored, storedValue)

/-! ### Session store repair effect (`providers/ChatProvider.tsx`) -/

/-- The repair effect of `ChatProvider`: after a state change, when
`!state.activeChatId && state.chats.length > 0`, dispatch
`SET_ACTIVE_CHAT` with the first chat's id; otherwise dispatch
nothing. -/
def repairAction (s : AppState) : Option Action :=
  match s.chats with
  | [] => none
  | c :: _ =>
    if truthyOptStr s.activeChatId then none
    else some (Action.setActiveChat (some c.id))

/-! ### Derived forms used by the statements -/

/-- Fold a sequence of `APPEND_STREAM_TOKEN` dispatches for one session
through the reducer; each element pairs the token with its append
time. -/
def applyTokens (s : AppState) (chatId : String) (toks : List (String × Nat)) : AppState :=
  toks.foldl (fun st p => chatReducer st (Action.appendStreamToken chatId p.1 p.2)) s

/-- Fold the same token sequence at the level of a single chat. -/
def applyTokensChat (toks : List (String × Nat)) (chat : Chat) : Chat :=
  toks.foldl (fun ch p => appendTokenChat p.1 p.2 ch) chat

/-- Concatenation of a token sequence in dispatch order. -/
def tokensConcat : List (String × Nat) → String
  | [] => ""
  | p :: rest => p.1 ++ tokensConcat rest

/-- The generation time of the last message of the first chat, for the
concrete counterexample computations. -/
def lastGen (s : AppState) : Option (Option ℚ) :=
  (s.chats.head?.bind (fun ch => ch.messages.getLast?)).map Message.generationTime

/-! ### Concrete states used by witnesses and counterexamples -/

def demoModelMsg : Message :=
  { id := "m1", role := Role.model, content := "" }

def demoUserMsg : Message :=
  { id := "u1", role := Role.user, content := "hello" }

def demoChat : Chat :=
  { id := "a", title := "T", context := "ctx", messages := [demoUserMsg, demoModelMsg],
    createdAt := 5, isStreaming := true, streamingStartTime := some 1000 }

def demoState : AppState :=
  { chats := [demoChat], activeChatId := some "a" }

def demoChatEmpty : Chat :=
  { id := "a", title := "T", context := "ctx", messages := [], createdAt := 0 }

def demoStateEmpty : AppState :=
  { chats := [demoChatEmpty], activeChatId := some "a" }

def c7ChatA : Chat :=
  { id := "a", title := "A", context := "x", messages := [], createdAt := 0 }

def c7ChatEmptyId : Chat :=
  { id := "", title := "B", context := "y", messages := [], createdAt := 1 }

def c7State : AppState :=
  { chats := [c7ChatA, c7ChatEmptyId], activeChatId := some "a" }

def c8State : AppState := { chats := [demoChat], activeChatId := none }

/-- A concrete stand-in for `JSON.parse` on a tiny value type. -/
def demoParse : String → Option Nat :=
  fun s => if s = "42" then some 42 else none

def c3Controller : ControllerState := ⟨[("a", "e1")]⟩

def c1Chat : Chat :=
  { id := "c", title := "T", context := "x",
    messages := [{ id := "m", role := Role.model, content := "" }],
    createdAt := 0, isStreaming := true, streamingStartTime := some 1000 }

def c1State : AppState := { chats := [c1Chat], activeChatId := some "c" }

def c1ChatZero : Chat :=
  { id := "c", title := "T", context := "x",
    messages := [{ id := "m", role := Role.model, content := "" }],
    createdAt := 0, isStreaming := true, streamingStartTime := some 0 }

def c1StateZero : AppState := { chats := [c1ChatZero], activeChatId := some "c" }

/-! ### Basic lemmas about the per-session update pattern -/

theorem mapChat_length (chatId : String) (f : Chat → Chat) (chats : List Chat) :
    (mapChat chatId f chats).length = chats.length := by
  simp [mapChat]

theorem mapChat_getElem? (chatId : String) (f : Chat → Chat) (chats : List Chat) (i : Nat) :
    (mapChat chatId f chats)[i]? =
      chats[i]?.map (fun chat => if chat.id == chatId then f chat else chat) := by
  simp [mapChat]

theorem mapChat_eq_self {chatId : String} {f : Chat → Chat} {chats : List Chat}
    (h : ∀ chat ∈ chats, chat.id ≠ chatId) : mapChat chatId f chats = chats := by
  have hcong : ∀ chat ∈ chats, (if chat.id == chatId then f chat else chat) = id chat := by
    intro chat hc
    simp [h chat hc]
  rw [mapChat, List.map_congr_left hcong, List.map_id]

/-- Every per-session action leaves `activeChatId` untouched. -/
theorem chatReducer_activeChatId_frame (s : AppState) (a : Action) {sid : String}
    (h : a.sessionIdOf = some sid) :
    (chatReducer s a).activeChatId = s.activeChatId := by
  cases a <;> simp_all [Action.sessionIdOf, chatReducer]

/-- Every per-session action acts on the chat list through `mapChat` at
its session id. -/
theorem chatReducer_chats_perSession (s : AppState) (a : Action) {sid : String}
    (h : a.sessionIdOf = some sid) :
    ∃ f : Chat → Chat, (chatReducer s a).chats = mapChat sid f s.chats := by
  cases a with
  | addUserMessage chatId content freshId =>
    obtain rfl : chatId = sid := by simpa [Action.sessionIdOf] using h
    exact ⟨_, rfl⟩
  | addModelPlaceholder chatId freshId =>
    obtain rfl : chatId = sid := by simpa [Action.sessionIdOf] using h
    exact ⟨_, rfl⟩
  | appendStreamToken chatId token now =>
    obtain rfl : chatId = sid := by simpa [Action.sessionIdOf] using h
    exact ⟨_, rfl⟩
  | setChatStreamingStatus chatId isStreaming =>
    obtain rfl : chatId = sid := by simpa [Action.sessionIdOf] using h
    exact ⟨_, rfl⟩
  | setStreamingStartTime chatId startTime =>
    obtain rfl : chatId = sid := by simpa [Action.sessionIdOf] using h
    exact ⟨_, rfl⟩
  | rollbackLastExchange chatId =>
    obtain rfl : chatId = sid := by simpa [Action.sessionIdOf] using h
    exact ⟨_, rfl⟩
  | updateDraftMessage chatId text =>
    obtain rfl : chatId = sid := by simpa [Action.sessionIdOf] using h
    exact ⟨_, rfl⟩
  | createChat context title freshId now timeLabel => simp [Action.sessionIdOf] at h
  | deleteChat chatId => simp [Action.sessionIdOf] at h
  | setActiveChat chatId => simp [Action.sessionIdOf] at h

/-! ### C9: the empty-message guard of APPEND_STREAM_TOKEN -/

/-- C9: for every state and `AppendStreamToken` action whose target
session exists but has an empty message list, the reducer returns the
input state unchanged — the optional-chaining guard
`lastMessage?.role !== 'model'` makes the out-of-bounds last-message
access harmless. -/
theorem appendStreamToken_empty_guard (s : AppState) (c tok : String) (now : Nat)
    (hex : ∃ chat ∈ s.chats, chat.id = c)
    (hempty : ∀ chat ∈ s.chats, chat.id = c → chat.messages = []) :
    chatReducer s (Action.appendStreamToken c tok now) = s := by
  have hchats : mapChat c (appendTokenChat tok now) s.chats = s.chats := by
    have hcong : ∀ chat ∈ s.chats,
        (if chat.id == c then appendTokenChat tok now chat else chat) = id chat := by
      intro chat hc
      by_cases hid : chat.id = c
      · simp [hid, appendTokenChat, hempty chat hc hid]
      · simp [hid]
    rw [mapChat, List.map_congr_left hcong, List.map_id]
  show ({ s with chats := mapChat c (appendTokenChat tok now) s.chats } : AppState) = s
  rw [hchats]

/-- Witness for C9 at a concrete one-chat state with no messages. -/
theorem appendStreamToken_empty_guard_witness :
    chatReducer demoStateEmpty (Action.appendStreamToken "a" "tok" 7) = demoStateEmpty :=
  appendStreamToken_empty_guard demoStateEmpty "a" "tok" 7
    ⟨demoChatEmpty, by decide⟩ (by decide)

/-! ### C10: the frame property of per-session actions -/

/-- C10: every per-session action (`AddUserMessage`,
`AddModelPlaceholder`, `AppendStreamToken`, `SetStreamingStatus`,
`SetStreamingStartTime`, `RollbackLastExchange`, `UpdateDraft`) leaves
`activeChatId` and every session other than its target unchanged (in
place), and when no session carries its target id the reducer returns
the input state. -/
theorem perSession_frame (s : AppState) (a : Action) (sid : String)
    (h : a.sessionIdOf = some sid) :
    (chatReducer s a).activeChatId = s.activeChatId ∧
    (chatReducer s a).chats.length = s.chats.length ∧
    (∀ (i : Nat) (chat : Chat), s.chats[i]? = some chat → chat.id ≠ sid →
      (chatReducer s a).chats[i]? = some chat) ∧
    ((∀ chat ∈ s.chats, chat.id ≠ sid) → chatReducer s a = s) := by
  obtain ⟨f, hf⟩ := chatReducer_chats_perSession s a h
  refine ⟨chatReducer_activeChatId_frame s a h, ?_, ?_, ?_⟩
  · rw [hf, mapChat_length]
  · intro i chat hi hne
    rw [hf, mapChat_getElem?, hi]
    simp [hne]
  · intro hall
    have h1 : (chatReducer s a).chats = s.chats := by rw [hf, mapChat_eq_self hall]
    have h2 := chatReducer_activeChatId_frame s a h
    show (⟨(chatReducer s a).chats, (chatReducer s a).activeChatId⟩ : AppState) = s
    rw [h1, h2]

/-- Witness for C10: a draft update addressed to an id no session has
returns the state unchanged. -/
theorem perSession_frame_witness :
    chatReducer demoState (Action.updateDraftMessage "b" "x") = demoState :=
  (perSession_frame demoState (Action.updateDraftMessage "b" "x") "b" rfl).2.2.2 (by decide)

/-! ### C5: ROLLBACK_LAST_EXCHANGE -/

/-- C5: `RollbackLastExchange` drops exactly the trailing two messages
of the matching session when it has at least two (yielding the prefix
and touching nothing else of that session), is a no-op on sessions with
at most one message, and leaves every other session and the active id
unchanged. -/
theorem rollbackLastExchange_spec (s : AppState) (c : String) :
    (chatReducer s (Action.rollbackLastExchange c)).activeChatId = s.activeChatId ∧
    (chatReducer s (Action.rollbackLastExchange c)).chats.length = s.chats.length ∧
    (∀ (i : Nat) (chat : Chat) (ms : List Message) (u m : Message),
      s.chats[i]? = some chat → chat.id = c → chat.messages = ms ++ [u, m] →
      (chatReducer s (Action.rollbackLastExchange c)).chats[i]? =
        some { chat with messages := ms }) ∧
    (∀ (i : Nat) (chat : Chat),
      s.chats[i]? = some chat → chat.id = c → chat.messages.length ≤ 1 →
      (chatReducer s (Action.rollbackLastExchange c)).chats[i]? = some chat) ∧
    (∀ (i : Nat) (chat : Chat),
      s.chats[i]? = some chat → chat.id ≠ c →
      (chatReducer s (Action.rollbackLastExchange c)).chats[i]? = some chat) := by
  have hred : (chatReducer s (Action.rollbackLastExchange c)).chats =
      mapChat c rollbackChat s.chats := rfl
  refine ⟨rfl, ?_, ?_, ?_, ?_⟩
  · rw [hred, mapChat_length]
  · intro i chat ms u m hi hid hms
    rw [hred, mapChat_getElem?, hi]
    have hlen : chat.messages.length ≥ 2 := by simp [hms]
    have htake : chat.messages.take (chat.messages.length - 2) = ms := by
      rw [hms]
      exact List.take_left' (by simp)
    simp only [Option.map_some', hid, beq_self_eq_true, if_true, rollbackChat]
    rw [if_pos hlen, htake]
  · intro i chat hi hid hlen
    rw [hred, mapChat_getElem?, hi]
    simp only [Option.map_some', hid, beq_self_eq_true, if_true, rollbackChat]
    rw [if_neg (by omega)]
  · intro i chat hi hne
    rw [hred, mapChat_getElem?, hi]
    simp [hne]

/-- Witness for C5: rolling back the two-message demo session leaves
an empty history; rolling back the empty session is a no-op. -/
theorem rollbackLastExchange_spec_witness :
    (chatReducer demoState (Action.rollbackLastExchange "a")).chats[0]? =
      some { demoChat with messages := [] } ∧
    (chatReducer demoStateEmpty (Action.rollbackLastExchange "a")).chats[0]? =
      some demoChatEmpty :=
  ⟨(rollbackLastExchange_spec demoState "a").2.2.1 0 demoChat [] demoUserMsg demoModelMsg
      (by decide) (by decide) (by decide),
   (rollbackLastExchange_spec demoStateEmpty "a").2.2.2.1 0 demoChatEmpty
      (by decide) (by decide) (by decide)⟩

/-! ### C7: DELETE_CHAT -/

/-- C7 counterexample: deleting the active session can leave
`activeChatId = null` even though a session remains.  The source
computes `updatedChats[0]?.id || null`, and `||` sends the remaining
head session's empty-string id to `null`, where the claim requires the
new head's id. -/
theorem deleteChat_counterexample :
    (chatReducer c7State (Action.deleteChat "a")).chats.map Chat.id = [""] ∧
    (chatReducer c7State (Action.deleteChat "a")).activeChatId = none := by
  decide

/-- C7 amended: `DeleteSession(id)` keeps exactly the sessions whose id
differs; if the deleted session was active, the new `activeChatId` is
the new head session's id when that id is non-empty, and `null` when no
session remains or the new head's id is the empty string (the `|| null`
fallback); if the deleted session was not active, `activeChatId` is
unchanged. -/
theorem deleteChat_spec (s : AppState) (cid : String) :
    (chatReducer s (Action.deleteChat cid)).chats =
      s.chats.filter (fun c => c.id != cid) ∧
    (s.activeChatId = some cid →
      (∀ (hd : Chat) (tl : List Chat),
        s.chats.filter (fun c => c.id != cid) = hd :: tl → hd.id ≠ "" →
        (chatReducer s (Action.deleteChat cid)).activeChatId = some hd.id) ∧
      (∀ (hd : Chat) (tl : List Chat),
        s.chats.filter (fun c => c.id != cid) = hd :: tl → hd.id = "" →
        (chatReducer s (Action.deleteChat cid)).activeChatId = none) ∧
      (s.chats.filter (fun c => c.id != cid) = [] →
        (chatReducer s (Action.deleteChat cid)).activeChatId = none)) ∧
    (s.activeChatId ≠ some cid →
      (chatReducer s (Action.deleteChat cid)).activeChatId = s.activeChatId) := by
  refine ⟨rfl, fun hact => ⟨?_, ?_, ?_⟩, fun hact => ?_⟩
  · intro hd tl hfil hne
    show (if s.activeChatId = some cid then
        jsOrNull (((s.chats.filter (fun c => c.id != cid)).head?).map Chat.id)
      else s.activeChatId) = some hd.id
    rw [if_pos hact, hfil]
    simp [jsOrNull, hne]
  · intro hd tl hfil heq
    show (if s.activeChatId = some cid then
        jsOrNull (((s.chats.filter (fun c => c.id != cid)).head?).map Chat.id)
      else s.activeChatId) = none
    rw [if_pos hact, hfil]
    simp [jsOrNull, heq]
  · intro hfil
    show (if s.activeChatId = some cid then
        jsOrNull (((s.chats.filter (fun c => c.id != cid)).head?).map Chat.id)
      else s.activeChatId) = none
    rw [if_pos hact, hfil]
    simp [jsOrNull]
  · show (if s.activeChatId = some cid then
        jsOrNull (((s.chats.filter (fun c => c.id != cid)).head?).map Chat.id)
      else s.activeChatId) = s.activeChatId
    rw [if_neg hact]

/-- Witness for C7 (amended) at the counterexample state: deleting the
active session "a" leaves the empty-id session and a `null` active id;
deleting a non-active id leaves the active id unchanged. -/
theorem deleteChat_spec_witness :
    (chatReducer c7State (Action.deleteChat "a")).activeChatId = none ∧
    (chatReducer c7State (Action.deleteChat "")).activeChatId = some "a" :=
  ⟨((deleteChat_spec c7State "a").2.1 (by decide)).2.1 c7ChatEmptyId [] (by decide) (by decide),
   (deleteChat_spec c7State "").2.2 (by decide)⟩

/-! ### C8: the active-session repair effect -/

/-- C8: whenever `activeChatId` is unset while at least one session
exists, the repair effect dispatches `SET_ACTIVE_CHAT` with the first
session's id; applying that dispatch makes an existing session active,
after which (the first id being non-empty, as every generated UUID is)
the repair no longer fires; a settled state with sessions always has a
non-empty active id; and the repair lives outside the reducer — no
per-session action ever changes `activeChatId`. -/
theorem repair_spec :
    (∀ (s : AppState) (c : Chat) (rest : List Chat),
      s.chats = c :: rest → s.activeChatId = none →
      repairAction s = some (Action.setActiveChat (some c.id))) ∧
    (∀ (s : AppState) (c : Chat) (rest : List Chat),
      s.chats = c :: rest → s.activeChatId = none →
      ∃ chat ∈ (chatReducer s (Action.setActiveChat (some c.id))).chats,
        (chatReducer s (Action.setActiveChat (some c.id))).activeChatId = some chat.id) ∧
    (∀ (s : AppState) (c : Chat) (rest : List Chat),
      s.chats = c :: rest → c.id ≠ "" →
      repairAction (chatReducer s (Action.setActiveChat (some c.id))) = none) ∧
    (∀ s : AppState, s.chats ≠ [] → repairAction s = none →
      ∃ id, s.activeChatId = some id ∧ id ≠ "") ∧
    (∀ (s : AppState) (a : Action) (sid : String), a.sessionIdOf = some sid →
      (chatReducer s a).activeChatId = s.activeChatId) := by
  refine ⟨?_, ?_, ?_, ?_, fun s a sid h => chatReducer_activeChatId_frame s a h⟩
  · intro s c rest hc hact
    rw [repairAction, hc, hact]
    simp [truthyOptStr]
  · intro s c rest hc hact
    refine ⟨c, ?_, rfl⟩
    show c ∈ s.chats
    rw [hc]
    exact List.mem_cons_self c rest
  · intro s c rest hc hne
    rw [repairAction]
    show (match s.chats with
      | [] => none
      | c' :: _ =>
        if truthyOptStr (some c.id) then none
        else some (Action.setActiveChat (some c'.id))) = none
    rw [hc]
    simp [truthyOptStr, hne]
  · intro s hne hrep
    rw [repairAction] at hrep
    match hc : s.chats with
    | [] => exact absurd hc hne
    | c :: rest =>
      rw [hc] at hrep
      by_cases htr : truthyOptStr s.activeChatId = true
      · match hact : s.activeChatId with
        | none => rw [hact] at htr; simp [truthyOptStr] at htr
        | some id =>
          refine ⟨id, rfl, ?_⟩
          rw [hact] at htr
          simpa [truthyOptStr] using htr
      · have hrep' : (if truthyOptStr s.activeChatId = true then none
            else some (Action.setActiveChat (some c.id))) = (none : Option Action) := hrep
        rw [if_neg htr] at hrep'
        exact absurd hrep' (by simp)

/-- Witness for C8 at a one-session state with no active id: the
repair dispatches the first session's id, applying it activates an
existing session, and the repaired state is settled. -/
theorem repair_spec_witness :
    repairAction c8State = some (Action.setActiveChat (some "a")) ∧
    (∃ chat ∈ (chatReducer c8State (Action.setActiveChat (some demoChat.id))).chats,
      (chatReducer c8State (Action.setActiveChat (some demoChat.id))).activeChatId =
        some chat.id) ∧
    repairAction (chatReducer c8State (Action.setActiveChat (some demoChat.id))) = none :=
  ⟨repair_spec.1 c8State demoChat [] rfl rfl,
   repair_spec.2.1 c8State demoChat [] rfl rfl,
   repair_spec.2.2.1 c8State demoChat [] rfl (by decide)⟩

/-! ### C6: the persistence adapter -/

/-- C6: loading persisted state yields the parsed state when the blob
parses, and the provided default when the blob is absent or unparsable
or the storage is unavailable, never raising (`parse` abstracts
`JSON.parse`, with `parse "" = none` since `JSON.parse("")` throws); a
failing save is swallowed and leaves the in-memory state unchanged. -/
theorem localStorage_spec {T : Type} (parse : String → Option T) (init : T)
    (hJson : parse "" = none) :
    (∀ (blob : String) (v : T), parse blob = some v →
      localStorageLoad parse (StorageRead.found (some blob)) init = v) ∧
    (∀ blob : String, parse blob = none →
      localStorageLoad parse (StorageRead.found (some blob)) init = init) ∧
    localStorageLoad parse (StorageRead.found none) init = init ∧
    localStorageLoad parse StorageRead.raises init = init ∧
    localStorageLoad parse StorageRead.unavailable init = init ∧
    (∀ (windowDefined setOk : Bool) (stored : Option String) (serialize : T → String) (v : T),
      (localStorageSave windowDefined setOk stored serialize v).2 = v) := by
  refine ⟨?_, ?_, rfl, rfl, rfl, ?_⟩
  · intro blob v hv
    by_cases hb : blob = ""
    · rw [hb, hJson] at hv
      exact absurd hv (by simp)
    · rw [localStorageLoad, if_neg hb, hv]
  · intro blob hv
    rw [localStorageLoad]
    by_cases hb : blob = ""
    · rw [if_pos hb]
    · rw [if_neg hb, hv]
  · intro windowDefined setOk stored serialize v
    rw [localStorageSave]
    by_cases h : (windowDefined && setOk) = true
    · rw [if_pos h]
    · rw [if_neg h]

/-- Witness for C6 with a concrete parse function: a parsable blob
loads to its value, garbage and absent blobs load to the default, and
a save with a raising `setItem` leaves the in-memory value intact. -/
theorem localStorage_spec_witness :
    localStorageLoad demoParse (StorageRead.found (some "42")) 0 = 42 ∧
    localStorageLoad demoParse (StorageRead.found (some "garbage")) 0 = 0 ∧
    localStorageLoad demoParse (StorageRead.found none) 0 = 0 ∧
    (localStorageSave true false (some "old") (fun n => toString n) 7).2 = 7 :=
  ⟨(localStorage_spec demoParse 0 rfl).1 "42" 42 rfl,
   (localStorage_spec demoParse 0 rfl).2.1 "garbage" rfl,
   (localStorage_spec demoParse 0 rfl).2.2.1,
   (localStorage_spec demoParse 0 rfl).2.2.2.2.2 true false (some "old") (fun n => toString n) 7⟩

/-! ### Lemmas about the session-to-channel map -/

theorem lookupES_eraseES (l : List (String × String)) (c : String) :
    lookupES (eraseES l c) c = none := by
  rw [lookupES]
  have hfind : (eraseES l c).find? (fun p => p.1 == c) = none := by
    rw [List.find?_eq_none]
    intro p hp
    have hmem := List.mem_filter.mp hp
    simpa using hmem.2
  rw [hfind]
  rfl

theorem lookupES_setES (l : List (String × String)) (c id : String) :
    lookupES (setES l c id) c = some id := by
  rw [lookupES, setES, List.find?_cons_of_pos _ (by simp)]
  rfl

theorem eraseES_filter_self (l : List (String × String)) (c : String) :
    (eraseES l c).filter (fun p => p.1 == c) = [] := by
  rw [List.filter_eq_nil_iff]
  intro p hp
  have hmem := List.mem_filter.mp hp
  simpa using hmem.2

theorem setES_filter_self (l : List (String × String)) (c id : String) :
    (setES l c id).filter (fun p => p.1 == c) = [(c, id)] := by
  rw [setES, List.filter_cons]
  simp only [beq_self_eq_true, if_true]
  rw [eraseES_filter_self]

theorem keysNodup_eraseES {l : List (String × String)}
    (h : (l.map Prod.fst).Nodup) (c : String) :
    ((eraseES l c).map Prod.fst).Nodup :=
  List.Nodup.sublist (List.Sublist.map Prod.fst (List.filter_sublist l)) h

theorem keysNodup_setES {l : List (String × String)}
    (h : (l.map Prod.fst).Nodup) (c id : String) :
    ((setES l c id).map Prod.fst).Nodup := by
  rw [setES, List.map_cons, List.nodup_cons]
  refine ⟨?_, keysNodup_eraseES h c⟩
  intro hmem
  obtain ⟨p, hp, hfst⟩ := List.mem_map.mp hmem
  have hne := (List.mem_filter.mp hp).2
  rw [hfst] at hne
  simp at hne

/-- The channel map after `stopStream`: untouched when no channel is
open for the session, the session's entry erased otherwise. -/
theorem stopStream_state (cs : ControllerState) (c : String) (m : Bool) :
    (stopStream cs c m).state = cs ∨
    (stopStream cs c m).state = ⟨eraseES cs.eventSources c⟩ := by
  rcases hes : lookupES cs.eventSources c with _ | es
  · left
    unfold stopStream
    rw [hes]
  · right
    unfold stopStream
    rw [hes]

theorem stopStream_keysNodup {cs : ControllerState} (h : KeysNodup cs) (c : String) (m : Bool) :
    KeysNodup (stopStream cs c m).state := by
  rcases stopStream_state cs c m with he | he <;> rw [he]
  · exact h
  · exact keysNodup_eraseES h c

/-- The channel map after `startStream`: the fresh channel registered
over the map left by the conditional internal stop. -/
theorem startStream_state (cs : ControllerState) (chatId prompt context : String)
    (now : Nat) (uid mid clientId : String) :
    (startStream cs chatId prompt context now uid mid clientId).state =
      ⟨setES (if (lookupES cs.eventSources chatId).isSome then
          (stopStream cs chatId true).state else cs).eventSources chatId clientId⟩ := by
  by_cases hs : (lookupES cs.eventSources chatId).isSome <;>
    simp [startStream, hs]

theorem startStream_closed (cs : ControllerState) (chatId prompt context : String)
    (now : Nat) (uid mid clientId : String) :
    (startStream cs chatId prompt context now uid mid clientId).closed =
      (if (lookupES cs.eventSources chatId).isSome then
        (stopStream cs chatId true).closed else []) := by
  by_cases hs : (lookupES cs.eventSources chatId).isSome <;>
    simp [startStream, hs]

theorem startStream_keysNodup {cs : ControllerState} (h : KeysNodup cs)
    (chatId prompt context : String) (now : Nat) (uid mid clientId : String) :
    KeysNodup (startStream cs chatId prompt context now uid mid clientId).state := by
  rw [startStream_state]
  by_cases hs : (lookupES cs.eventSources chatId).isSome
  · rw [if_pos hs]
    exact keysNodup_setES (stopStream_keysNodup h chatId true) chatId clientId
  · rw [if_neg hs]
    exact keysNodup_setES h chatId clientId

theorem stepES_keysNodup {cs : ControllerState} (h : KeysNodup cs) (s : StreamStep) :
    KeysNodup (stepES cs s) := by
  cases s with
  | start chatId prompt context now uid mid clientId =>
    exact startStream_keysNodup h chatId prompt context now uid mid clientId
  | stop chatId m => exact stopStream_keysNodup h chatId m
  | endEvent chatId => exact stopStream_keysNodup h chatId false
  | errorEvent chatId => exact stopStream_keysNodup h chatId false
  | submitFailure chatId => exact stopStream_keysNodup h chatId false
  | dataEvent chatId token => exact h

theorem foldl_stepES_keysNodup (steps : List StreamStep) :
    ∀ cs : ControllerState, KeysNodup cs → KeysNodup (steps.foldl stepES cs) := by
  induction steps with
  | nil => exact fun cs h => h
  | cons s rest ih => exact fun cs h => ih _ (stepES_keysNodup h s)

/-! ### C3: stopStream -/

/-- C3: `stopStream(sessionId, { manual })` with an open channel closes
and discards exactly that channel, dispatches the clearing of the start
time and of the streaming flag, and dispatches
`ROLLBACK_LAST_EXCHANGE` precisely when the stop is manual; with no
open channel it is a no-op (no channel change, nothing dispatched,
nothing closed), so a second consecutive `stopStream` is always the
identity. -/
theorem stopStream_spec (cs : ControllerState) (c : String) (manual : Bool) :
    (∀ es : String, lookupES cs.eventSources c = some es →
      (stopStream cs c manual).closed = [es] ∧
      (stopStream cs c manual).state.eventSources = eraseES cs.eventSources c ∧
      lookupES (stopStream cs c manual).state.eventSources c = none ∧
      (stopStream cs c manual).dispatched =
        [Action.setStreamingStartTime c none, Action.setChatStreamingStatus c false] ++
          (if manual then [Action.rollbackLastExchange c] else []) ∧
      (Action.rollbackLastExchange c ∈ (stopStream cs c manual).dispatched ↔
        manual = true)) ∧
    (lookupES cs.eventSources c = none →
      stopStream cs c manual = ⟨cs, [], []⟩) ∧
    stopStream (stopStream cs c manual).state c manual =
      ⟨(stopStream cs c manual).state, [], []⟩ := by
  have hnone2 : lookupES (stopStream cs c manual).state.eventSources c = none := by
    rcases hes : lookupES cs.eventSources c with _ | es
    · have hst : (stopStream cs c manual).state = cs := by
        unfold stopStream
        rw [hes]
      rw [hst]
      exact hes
    · have hst : (stopStream cs c manual).state = ⟨eraseES cs.eventSources c⟩ := by
        unfold stopStream
        rw [hes]
      rw [hst]
      exact lookupES_eraseES cs.eventSources c
  have hnoop : ∀ cs' : ControllerState, lookupES cs'.eventSources c = none →
      stopStream cs' c manual = ⟨cs', [], []⟩ := by
    intro cs' hes
    unfold stopStream
    rw [hes]
  refine ⟨?_, hnoop cs, hnoop _ hnone2⟩
  intro es hes
  have hred : stopStream cs c manual =
      { state := ⟨eraseES cs.eventSources c⟩
        dispatched :=
          [Action.setStreamingStartTime c none, Action.setChatStreamingStatus c false] ++
            (if manual then [Action.rollbackLastExchange c] else [])
        closed := [es] } := by
    unfold stopStream
    rw [hes]
  refine ⟨by rw [hred], by rw [hred], hnone2, by rw [hred], ?_⟩
  rw [hred]
  cases manual <;> simp

/-- Witness for C3 at a one-channel controller: a manual stop closes
the channel, dispatches the two clearing actions plus the rollback,
and a repeated stop is the identity. -/
theorem stopStream_spec_witness :
    (stopStream c3Controller "a" true).closed = ["e1"] ∧
    (stopStream c3Controller "a" true).dispatched =
      [Action.setStreamingStartTime "a" none, Action.setChatStreamingStatus "a" false] ++
        [Action.rollbackLastExchange "a"] ∧
    stopStream (stopStream c3Controller "a" true).state "a" true =
      ⟨(stopStream c3Controller "a" true).state, [], []⟩ :=
  ⟨((stopStream_spec c3Controller "a" true).1 "e1" rfl).1,
   by
    have h := ((stopStream_spec c3Controller "a" true).1 "e1" rfl).2.2.2.1
    simpa using h,
   (stopStream_spec c3Controller "a" true).2.2⟩

/-! ### C4: at most one open channel per session -/

/-- C4: the controller's session-to-channel map keeps at most one open
channel per session id along every sequence of `startStream`,
`stopStream` and channel-event steps (its keys stay pairwise distinct,
from any well-formed state and from the initial empty map); and a
second `startStream` for the same session closes the first channel
during the call and leaves exactly one channel for that session, the
newly opened one. -/
theorem oneChannelPerSession :
    (∀ (cs : ControllerState) (step : StreamStep),
      KeysNodup cs → KeysNodup (stepES cs step)) ∧
    (∀ steps : List StreamStep, KeysNodup (steps.foldl stepES ⟨[]⟩)) ∧
    (∀ (cs : ControllerState) (c p₁ x₁ : String) (n₁ : Nat) (u₁ m₁ id₁ p₂ x₂ : String)
        (n₂ : Nat) (u₂ m₂ id₂ : String),
      ((startStream (startStream cs c p₁ x₁ n₁ u₁ m₁ id₁).state c p₂ x₂ n₂ u₂ m₂
          id₂).state.eventSources.filter (fun p => p.1 == c)).length = 1 ∧
      lookupES (startStream (startStream cs c p₁ x₁ n₁ u₁ m₁ id₁).state c p₂ x₂ n₂ u₂ m₂
          id₂).state.eventSources c = some id₂ ∧
      (startStream (startStream cs c p₁ x₁ n₁ u₁ m₁ id₁).state c p₂ x₂ n₂ u₂ m₂
          id₂).closed = [id₁]) := by
  refine ⟨fun cs step h => stepES_keysNodup h step,
    fun steps => foldl_stepES_keysNodup steps ⟨[]⟩ (by simp [KeysNodup]),
    ?_⟩
  intro cs c p₁ x₁ n₁ u₁ m₁ id₁ p₂ x₂ n₂ u₂ m₂ id₂
  have h1state : (startStream cs c p₁ x₁ n₁ u₁ m₁ id₁).state =
      ⟨setES (if (lookupES cs.eventSources c).isSome then
          (stopStream cs c true).state else cs).eventSources c id₁⟩ :=
    startStream_state cs c p₁ x₁ n₁ u₁ m₁ id₁
  have h1lookup : lookupES (startStream cs c p₁ x₁ n₁ u₁ m₁ id₁).state.eventSources c =
      some id₁ := by
    rw [h1state]
    exact lookupES_setES _ c id₁
  have h1some : (lookupES (startStream cs c p₁ x₁ n₁ u₁ m₁ id₁).state.eventSources c).isSome :=
    by rw [h1lookup]; rfl
  have h2state : (startStream (startStream cs c p₁ x₁ n₁ u₁ m₁ id₁).state c p₂ x₂ n₂ u₂ m₂
      id₂).state =
      ⟨setES (stopStream (startStream cs c p₁ x₁ n₁ u₁ m₁ id₁).state c
          true).state.eventSources c id₂⟩ := by
    rw [startStream_state, if_pos h1some]
  refine ⟨?_, ?_, ?_⟩
  · rw [h2state]
    rw [setES_filter_self]
    rfl
  · rw [h2state]
    exact lookupES_setES _ c id₂
  · rw [startStream_closed, if_pos h1some]
    have : stopStream (startStream cs c p₁ x₁ n₁ u₁ m₁ id₁).state c true =
        { state := ⟨eraseES (startStream cs c p₁ x₁ n₁ u₁ m₁ id₁).state.eventSources c⟩
          dispatched :=
            [Action.setStreamingStartTime c none, Action.setChatStreamingStatus c false] ++
              [Action.rollbackLastExchange c]
          closed := [id₁] } := by
      unfold stopStream
      rw [h1lookup]
      rfl
    rw [this]

/-- Witness for C4: one stop on a one-channel controller preserves the
invariant, and a concrete double start closes the first channel and
keeps exactly the second. -/
theorem oneChannelPerSession_witness :
    KeysNodup (stepES ⟨[("a", "e1")]⟩ (StreamStep.stop "a" true)) ∧
    ((startStream (startStream ⟨[]⟩ "a" "p" "x" 1 "u1" "m1" "e1").state "a" "q" "x" 2 "u2"
        "m2" "e2").state.eventSources.filter (fun p => p.1 == "a")).length = 1 ∧
    (startStream (startStream ⟨[]⟩ "a" "p" "x" 1 "u1" "m1" "e1").state "a" "q" "x" 2 "u2"
        "m2" "e2").closed = ["e1"] :=
  ⟨oneChannelPerSession.1 ⟨[("a", "e1")]⟩ (StreamStep.stop "a" true) (by simp [KeysNodup]),
   (oneChannelPerSession.2.2 ⟨[]⟩ "a" "p" "x" 1 "u1" "m1" "e1" "q" "x" 2 "u2" "m2" "e2").1,
   (oneChannelPerSession.2.2 ⟨[]⟩ "a" "p" "x" 1 "u1" "m1" "e1" "q" "x" 2 "u2" "m2" "e2").2.2⟩

/-! ### Lemmas about token appending -/

theorem appendTokenChat_id (t : String) (n : Nat) (chat : Chat) :
    (appendTokenChat t n chat).id = chat.id := by
  unfold appendTokenChat
  split
  · rfl
  · split
    · rfl
    · rfl

theorem string_empty_append (s : String) : "" ++ s = s := by
  cases s
  rfl

theorem string_append_ne_empty_left {s : String} (h : s ≠ "") (t : String) :
    s ++ t ≠ "" := by
  intro hc
  apply h
  have hdata : s.data ++ t.data = [] := congrArg String.data hc
  have hs : s.data = [] := (List.append_eq_nil.mp hdata).1
  cases s
  cases hs
  rfl

theorem getLast?_decomp {l : List Message} {lm : Message} (h : l.getLast? = some lm) :
    l = l.dropLast ++ [lm] := by
  rcases List.eq_nil_or_concat l with rfl | ⟨l', a, rfl⟩
  · simp at h
  · rw [List.concat_eq_append] at h ⊢
    rw [List.getLast?_concat] at h
    obtain rfl := Option.some.inj h
    rw [List.dropLast_concat]

/-- One `APPEND_STREAM_TOKEN` step on a chat whose last message is a
model message, written as an explicit record update. -/
theorem appendTokenChat_eq (t : String) (n : Nat) (chat : Chat) (ms : List Message)
    (lm : Message) (hms : chat.messages = ms ++ [lm]) (hrole : lm.role = Role.model) :
    appendTokenChat t n chat =
      { chat with messages := ms ++ [{ lm with
          content := lm.content ++ t,
          generationTime :=
            if (lm.content == "") && truthyNat chat.streamingStartTime then
              some (((n : ℚ) - ((chat.streamingStartTime.getD 0 : Nat) : ℚ)) / 1000)
            else lm.generationTime }] } := by
  unfold appendTokenChat
  rw [hms, List.getLast?_concat]
  dsimp only
  rw [if_neg (by simp [hrole]), List.dropLast_concat]

/-- Once the last message has non-empty content, further appends keep
its `generationTime` (and keep the content non-empty). -/
theorem applyTokensChat_stable (toks : List (String × Nat)) :
    ∀ (chat : Chat) (ms : List Message) (lm : Message),
      chat.messages = ms ++ [lm] → lm.role = Role.model → lm.content ≠ "" →
      ∃ lm' : Message,
        (applyTokensChat toks chat).messages = ms ++ [lm'] ∧
        lm'.role = Role.model ∧ lm'.content ≠ "" ∧
        lm'.generationTime = lm.generationTime := by
  induction toks with
  | nil =>
    intro chat ms lm hms hrole hcon
    exact ⟨lm, hms, hrole, hcon, rfl⟩
  | cons p rest ih =>
    intro chat ms lm hms hrole hcon
    have hone : applyTokensChat (p :: rest) chat =
        applyTokensChat rest (appendTokenChat p.1 p.2 chat) := rfl
    rw [hone, appendTokenChat_eq p.1 p.2 chat ms lm hms hrole]
    have hbeq : (lm.content == "") = false := by
      simp [hcon]
    rw [hbeq]
    simp only [Bool.false_and, if_false]
    obtain ⟨lm', hmsgs, hrole', hcon', hgen'⟩ :=
      ih { chat with messages := ms ++ [{ lm with content := lm.content ++ p.1 }] }
        ms { lm with content := lm.content ++ p.1 } rfl hrole
        (string_append_ne_empty_left hcon p.1)
    exact ⟨lm', hmsgs, hrole', hcon', hgen'⟩

/-- With a falsy `streamingStartTime` (undefined or zero), no append
ever computes a `generationTime`. -/
theorem applyTokensChat_notruthy (toks : List (String × Nat)) :
    ∀ (chat : Chat) (ms : List Message) (lm : Message),
      chat.messages = ms ++ [lm] → lm.role = Role.model →
      truthyNat chat.streamingStartTime = false →
      ∃ lm' : Message,
        (applyTokensChat toks chat).messages = ms ++ [lm'] ∧
        lm'.role = Role.model ∧
        lm'.generationTime = lm.generationTime := by
  induction toks with
  | nil =>
    intro chat ms lm hms hrole htr
    exact ⟨lm, hms, hrole, rfl⟩
  | cons p rest ih =>
    intro chat ms lm hms hrole htr
    have hone : applyTokensChat (p :: rest) chat =
        applyTokensChat rest (appendTokenChat p.1 p.2 chat) := rfl
    rw [hone, appendTokenChat_eq p.1 p.2 chat ms lm hms hrole, htr]
    simp only [Bool.and_false, if_false]
    obtain ⟨lm', hmsgs, hrole', hgen'⟩ :=
      ih { chat with messages := ms ++ [{ lm with content := lm.content ++ p.1 }] }
        ms { lm with content := lm.content ++ p.1 } rfl hrole htr
    exact ⟨lm', hmsgs, hrole', hgen'⟩

/-- Folding a token sequence concatenates the tokens onto the last
message's content, in order. -/
theorem applyTokensChat_content (toks : List (String × Nat)) :
    ∀ (chat : Chat) (ms : List Message) (lm : Message),
      chat.messages = ms ++ [lm] → lm.role = Role.model →
      ∃ lm' : Message,
        (applyTokensChat toks chat).messages = ms ++ [lm'] ∧
        lm'.role = Role.model ∧
        lm'.content = lm.content ++ tokensConcat toks ∧
        lm'.id = lm.id := by
  induction toks with
  | nil =>
    intro chat ms lm hms hrole
    refine ⟨lm, hms, hrole, ?_, rfl⟩
    show lm.content = lm.content ++ ""
    rw [String.append_empty]
  | cons p rest ih =>
    intro chat ms lm hms hrole
    have hone : applyTokensChat (p :: rest) chat =
        applyTokensChat rest (appendTokenChat p.1 p.2 chat) := rfl
    rw [hone, appendTokenChat_eq p.1 p.2 chat ms lm hms hrole]
    obtain ⟨lm', hmsgs, hrole', hcon', hid'⟩ :=
      ih { chat with messages := ms ++ [{ lm with
            content := lm.content ++ p.1,
            generationTime :=
              if (lm.content == "") && truthyNat chat.streamingStartTime then
                some (((p.2 : ℚ) - ((chat.streamingStartTime.getD 0 : Nat) : ℚ)) / 1000)
              else lm.generationTime }] }
        ms _ rfl hrole
    refine ⟨lm', hmsgs, hrole', ?_, hid'⟩
    rw [hcon']
    show lm.content ++ p.1 ++ tokensConcat rest = lm.content ++ (p.1 ++ tokensConcat rest)
    rw [String.append_assoc]

/-- A token fold through the reducer acts chat-wise on the matching
chats and leaves `activeChatId` alone. -/
theorem applyTokens_chats (c : String) (toks : List (String × Nat)) :
    ∀ s : AppState,
      (applyTokens s c toks).chats =
        s.chats.map (fun chat => if chat.id == c then applyTokensChat toks chat else chat) ∧
      (applyTokens s c toks).activeChatId = s.activeChatId := by
  induction toks with
  | nil =>
    intro s
    constructor
    · show s.chats = _
      have hcong : ∀ chat ∈ s.chats,
          (if chat.id == c then applyTokensChat [] chat else chat) = id chat := by
        intro chat hc
        by_cases h : chat.id = c <;> simp [h, applyTokensChat]
      rw [List.map_congr_left hcong, List.map_id]
    · rfl
  | cons p rest ih =>
    intro s
    have hstep : applyTokens s c (p :: rest) =
        applyTokens (chatReducer s (Action.appendStreamToken c p.1 p.2)) c rest := rfl
    rw [hstep]
    obtain ⟨h1, h2⟩ := ih (chatReducer s (Action.appendStreamToken c p.1 p.2))
    constructor
    · rw [h1]
      show (mapChat c (appendTokenChat p.1 p.2) s.chats).map _ = _
      rw [mapChat, List.map_map]
      apply List.map_congr_left
      intro chat hc
      by_cases h : chat.id = c
      · have hid : (appendTokenChat p.1 p.2 chat).id = c := by
          rw [appendTokenChat_id, h]
        simp only [Function.comp, h, beq_self_eq_true, if_true, hid]
        rfl
      · simp only [Function.comp]
        have hb : (chat.id == c) = false := by simp [h]
        rw [hb]
        simp only [Bool.false_eq_true, if_false]
        rw [hb]
        simp
    · rw [h2]
      rfl

/-- The last message of the matching chat after a token fold, read off
the application state. -/
theorem applyTokens_lastMessage (s : AppState) (c : String) (toks : List (String × Nat))
    (i : Nat) (chat : Chat) (hi : s.chats[i]? = some chat) (hid : chat.id = c)
    (ms : List Message) (lm' : Message)
    (hmsgs : (applyTokensChat toks chat).messages = ms ++ [lm']) :
    ((applyTokens s c toks).chats[i]?.bind (fun ch => ch.messages.getLast?)) = some lm' := by
  obtain ⟨hchats, hact⟩ := applyTokens_chats c toks s
  rw [hchats, List.getElem?_map, hi]
  simp only [Option.map_some', hid, beq_self_eq_true, if_true, Option.some_bind]
  rw [hmsgs, List.getLast?_concat]

/-! ### C2: token concatenation -/

/-- C2: for a session whose last message has role `model`, folding any
sequence of `AppendStreamToken` actions for that session through the
reducer yields a state whose matching session's last message content is
the previous content concatenated with the tokens in dispatch order —
no token lost, reordered, or altered (the last message also keeps its
identity and role). -/
theorem appendStreamToken_concat (s : AppState) (c : String) (toks : List (String × Nat))
    (i : Nat) (chat : Chat) (lm : Message)
    (hi : s.chats[i]? = some chat) (hid : chat.id = c)
    (hlast : chat.messages.getLast? = some lm) (hrole : lm.role = Role.model) :
    ∃ lm' : Message,
      ((applyTokens s c toks).chats[i]?.bind (fun ch => ch.messages.getLast?)) = some lm' ∧
      lm'.content = lm.content ++ tokensConcat toks ∧
      lm'.role = Role.model ∧ lm'.id = lm.id := by
  have hms : chat.messages = chat.messages.dropLast ++ [lm] := getLast?_decomp hlast
  obtain ⟨lm', hmsgs, hrole', hcon', hid'⟩ :=
    applyTokensChat_content toks chat chat.messages.dropLast lm hms hrole
  exact ⟨lm', applyTokens_lastMessage s c toks i chat hi hid _ lm' hmsgs, hcon', hrole', hid'⟩

/-- Witness for C2: streaming three tokens into the demo session turns
the empty placeholder into their concatenation. -/
theorem appendStreamToken_concat_witness :
    ∃ lm' : Message,
      ((applyTokens demoState "a" [("Hi", 1500), (" there", 1600), ("!", 1700)]).chats[0]?.bind
        (fun ch => ch.messages.getLast?)) = some lm' ∧
      lm'.content = "" ++ tokensConcat [("Hi", 1500), (" there", 1600), ("!", 1700)] ∧
      lm'.role = Role.model ∧ lm'.id = demoModelMsg.id :=
  appendStreamToken_concat demoState "a" [("Hi", 1500), (" there", 1600), ("!", 1700)]
    0 demoChat demoModelMsg (by decide) (by decide) (by decide) (by decide)

/-! ### C1: generationTime -/

/-- C1 counterexample: two reducer behaviours contradict the claim as
stated.  (1) An empty token leaves the placeholder content empty, so a
later append recomputes and overwrites `generationTime` (here from 1 s
to 2 s) — it is neither set "exactly once" nor "only on the transition
from empty to non-empty", nor "never overwritten".  (2) With the
defined start time `0`, the truthiness test `chat.streamingStartTime`
fails and `generationTime` is never computed, although the claim
requires `(5000 − 0) / 1000` to be attached. -/
theorem generationTime_counterexample :
    lastGen (applyTokens c1State "c" [("", 2000)]) = some (some 1) ∧
    lastGen (applyTokens c1State "c" [("", 2000), ("x", 3000)]) = some (some 2) ∧
    lastGen (applyTokens c1StateZero "c" [("x", 5000)]) = some none := by
  refine ⟨?_, ?_, rfl⟩
  · have h : lastGen (applyTokens c1State "c" [("", 2000)]) =
        some (some ((((2000 : Nat) : ℚ) - ((1000 : Nat) : ℚ)) / 1000)) := rfl
    rw [h]
    norm_num
  · have h : lastGen (applyTokens c1State "c" [("", 2000), ("x", 3000)]) =
        some (some ((((3000 : Nat) : ℚ) - ((1000 : Nat) : ℚ)) / 1000)) := rfl
    rw [h]
    norm_num

/-- C1 (amended): for any sequence of `AppendStreamToken` actions on a
session whose active placeholder (last message, role `model`) still has
empty content, whose first token is non-empty (as every token the
controller dispatches is, by the `if (data.token)` guard):
if `streamingStartTime` is defined and non-zero then `generationTime`
is set on that first append to `(append time − streamingStartTime) /
1000` and never overwritten by the rest of the sequence; if
`streamingStartTime` is falsy (undefined or zero) it is never computed;
and on a placeholder whose content is already non-empty no append ever
changes `generationTime`. -/
theorem generationTime_spec :
    (∀ (s : AppState) (c : String) (i : Nat) (chat : Chat) (lm : Message) (t₀ : Nat)
        (tok : String) (n : Nat) (rest : List (String × Nat)),
      s.chats[i]? = some chat → chat.id = c →
      chat.messages.getLast? = some lm → lm.role = Role.model → lm.content = "" →
      chat.streamingStartTime = some t₀ → t₀ ≠ 0 → tok ≠ "" →
      ∃ lm' : Message,
        ((applyTokens s c ((tok, n) :: rest)).chats[i]?.bind
          (fun ch => ch.messages.getLast?)) = some lm' ∧
        lm'.generationTime = some (((n : ℚ) - (t₀ : ℚ)) / 1000)) ∧
    (∀ (s : AppState) (c : String) (i : Nat) (chat : Chat) (lm : Message)
        (toks : List (String × Nat)),
      s.chats[i]? = some chat → chat.id = c →
      chat.messages.getLast? = some lm → lm.role = Role.model →
      truthyNat chat.streamingStartTime = false →
      ∃ lm' : Message,
        ((applyTokens s c toks).chats[i]?.bind
          (fun ch => ch.messages.getLast?)) = some lm' ∧
        lm'.generationTime = lm.generationTime) ∧
    (∀ (s : AppState) (c : String) (i : Nat) (chat : Chat) (lm : Message)
        (toks : List (String × Nat)),
      s.chats[i]? = some chat → chat.id = c →
      chat.messages.getLast? = some lm → lm.role = Role.model → lm.content ≠ "" →
      ∃ lm' : Message,
        ((applyTokens s c toks).chats[i]?.bind
          (fun ch => ch.messages.getLast?)) = some lm' ∧
        lm'.generationTime = lm.generationTime) := by
  refine ⟨?_, ?_, ?_⟩
  · intro s c i chat lm t₀ tok n rest hi hid hlast hrole hcon hst ht0 htok
    have hms : chat.messages = chat.messages.dropLast ++ [lm] := getLast?_decomp hlast
    have htruthy : truthyNat chat.streamingStartTime = true := by
      rw [hst]
      simpa [truthyNat] using ht0
    have hstep := appendTokenChat_eq tok n chat chat.messages.dropLast lm hms hrole
    rw [htruthy, hcon] at hstep
    simp only [beq_self_eq_true, Bool.true_and, if_true] at hstep
    rw [hst] at hstep
    have hone : applyTokensChat ((tok, n) :: rest) chat =
        applyTokensChat rest (appendTokenChat tok n chat) := rfl
    obtain ⟨lm', hmsgs, hrole', hcon', hgen'⟩ :=
      applyTokensChat_stable rest (appendTokenChat tok n chat) chat.messages.dropLast
        { lm with
          content := "" ++ tok,
          generationTime := some (((n : ℚ) - ((t₀ : Nat) : ℚ)) / 1000) }
        (by rw [hstep]; simp) hrole
        (by rw [string_empty_append]; exact htok)
    refine ⟨lm', ?_, ?_⟩
    · exact applyTokens_lastMessage s c ((tok, n) :: rest) i chat hi hid _ lm'
        (by rw [hone]; exact hmsgs)
    · rw [hgen']
  · intro s c i chat lm toks hi hid hlast hrole htr
    have hms : chat.messages = chat.messages.dropLast ++ [lm] := getLast?_decomp hlast
    obtain ⟨lm', hmsgs, hrole', hgen'⟩ :=
      applyTokensChat_notruthy toks chat chat.messages.dropLast lm hms hrole htr
    exact ⟨lm', applyTokens_lastMessage s c toks i chat hi hid _ lm' hmsgs, hgen'⟩
  · intro s c i chat lm toks hi hid hlast hrole hcon
    have hms : chat.messages = chat.messages.dropLast ++ [lm] := getLast?_decomp hlast
    obtain ⟨lm', hmsgs, hrole', hcon', hgen'⟩ :=
      applyTokensChat_stable toks chat chat.messages.dropLast lm hms hrole hcon
    exact ⟨lm', applyTokens_lastMessage s c toks i chat hi hid _ lm' hmsgs, hgen'⟩

/-- Witness for C1 (amended): streaming "Hi" at 1500 ms into the demo
session (start time 1000 ms) followed by any further token attaches
`generationTime = 0.5` s once, untouched by the second append. -/
theorem generationTime_spec_witness :
    ∃ lm' : Message,
      ((applyTokens demoState "a" [("Hi", 1500), ("!", 9999)]).chats[0]?.bind
        (fun ch => ch.messages.getLast?)) = some lm' ∧
      lm'.generationTime = some ((1500 - 1000 : ℚ) / 1000) :=
  generationTime_spec.1 demoState "a" 0 demoChat demoModelMsg 1000 "Hi" 1500 [("!", 9999)]
    (by decide) (by decide) (by decide) (by decide) (by decide) (by decide) (by decide)
    (by decide)

end LlmDistill
